import Mathlib

/-!
Shallow embedding of the timeline/animation compositor of
`src/motion_design.py` (Atlas AI motion-design video generator), together
with theorems settling the specification claims about it.

Modelling conventions:
* Python floats are modelled as rationals (`ℚ`); decimal literals of the
  source become the corresponding rational literals.
* `int(x)` of Python (truncation toward zero) is `pyInt`; `x // y`
  (floor division) is `⌊x / y⌋`; `x % y` on floats is `qmod`.
* The transcendental externals of the `math` module (`math.sin`,
  `math.pi`) and the real power `pow(2, -10*t)` are parameters
  (`sinQ`, `piQ`, `pow2`): the claims under study never depend on their
  values, only on how the code routes data through them.
* The global numpy random generator is explicit state (`RngState`):
  `np.random.seed` and `np.random.random` are state transformers, and the
  seeded stream itself is a parameter `stream : ℕ → ℕ → ℚ` giving the
  k-th draw after seeding with a given seed.
-/

namespace MotionDesign

/-- Python `int()` applied to a real quantity: truncation toward zero. -/
def pyInt (q : ℚ) : ℤ := if 0 ≤ q then ⌊q⌋ else ⌈q⌉

/-- Python float `%`: `a % b = a - b * floor (a / b)` (for `b > 0`). -/
def qmod (a b : ℚ) : ℚ := a - b * ⌊a / b⌋

/-! ### Configuration constants (source lines 15-17) -/

def WIDTH : ℚ := 1920
def HEIGHT : ℚ := 1080
def DURATION : ℚ := 24

/-! ### Easing functions (source lines 50-73) -/

/-- Source function `ease_in_out_cubic`: clamps its input to `[0,1]`,
then `4t³` below `0.5`, else `1 - (-2t+2)³/2`. -/
def ease_in_out_cubic (t : ℚ) : ℚ :=
  let t := max 0 (min 1 t)
  if t < 1/2 then 4 * t * t * t
  else 1 - (-2 * t + 2) ^ 3 / 2

/-- Source function `ease_out_elastic`: clamps its input to `[0,1]`,
special-cases the endpoints, else `2^(-10t)·sin((10t-0.75)·(2π/3)) + 1`.
`pow2` stands for `pow(2, ·)`, `sinQ` for `math.sin`, `piQ` for
`math.pi`. -/
def ease_out_elastic (sinQ pow2 : ℚ → ℚ) (piQ t : ℚ) : ℚ :=
  let t := max 0 (min 1 t)
  if t = 0 ∨ t = 1 then t
  else pow2 (-10 * t) * sinQ ((t * 10 - 3/4) * (2 * piQ / 3)) + 1

/-- Source function `ease_out_back`: clamps its input to `[0,1]`, then
`1 + c3(t-1)³ + c1(t-1)²` with `c1 = 1.70158`, `c3 = c1 + 1`. -/
def ease_out_back (t : ℚ) : ℚ :=
  let t := max 0 (min 1 t)
  let c1 : ℚ := 170158/100000
  let c3 : ℚ := c1 + 1
  1 + c3 * (t - 1) ^ 3 + c1 * (t - 1) ^ 2

/-- Source function `ease_out_quart`: clamps its input to `[0,1]`, then
`1 - (1-t)⁴`. -/
def ease_out_quart (t : ℚ) : ℚ :=
  let t := max 0 (min 1 t)
  1 - (1 - t) ^ 4

/-! ### Interpolation and color utilities (source lines 76-86) -/

/-- Source function `lerp`: linear interpolation with `t` clamped. -/
def lerp (a b t : ℚ) : ℚ := a + (b - a) * max 0 (min 1 t)

/-- Source function `lerp_color`: per-channel interpolation, truncated to
integers, `t` clamped. -/
def lerp_color (c1 c2 : List ℚ) (t : ℚ) : List ℤ :=
  (c1.zip c2).map (fun p => pyInt (p.1 + (p.2 - p.1) * max 0 (min 1 t)))

/-- Source function `alpha_color`: scales each channel by `alpha`,
truncates to an integer, and clamps to `[0, 255]`. -/
def alpha_color (color : List ℚ) (alpha : ℚ) : List ℤ :=
  color.map (fun c => max 0 (min 255 (pyInt (c * alpha))))

/-! ### Timeline scheduler and fade pipeline (source lines 704-744)

`make_frame` computes `scene_dur = DURATION / 6`,
`scene_idx = min(5, int(t / scene_dur))`, local progress, and then
multiplies the rasterised scene by up to three fade weights before a
single final clip to `[0, 255]`. -/

def scene_dur : ℚ := DURATION / 6

/-- Scene index of `make_frame`: `min(5, int(t / scene_dur))` — note: no lower clamp. -/
def scene_idx (t : ℚ) : ℤ := min 5 (pyInt (t / scene_dur))

/-- Local scene time of `make_frame`: `t - scene_idx * scene_dur`. -/
def scene_t (t : ℚ) : ℚ := t - (scene_idx t : ℚ) * scene_dur

/-- Local progress of `make_frame`: `scene_t / scene_dur`. -/
def progress (t : ℚ) : ℚ := scene_t t / scene_dur

def fade_dur : ℚ := 1/2

/-- Time elapsed in the active scene: `t - scene_idx * scene_dur`. -/
def time_in_scene (t : ℚ) : ℚ := t - (scene_idx t : ℚ) * scene_dur

/-- Time remaining in the active scene: `(scene_idx + 1) * scene_dur - t`. -/
def time_to_end (t : ℚ) : ℚ := ((scene_idx t : ℚ) + 1) * scene_dur - t

/-- Conditional fade multiplications of `make_frame` (source lines
728-742): starting from a raw rasterised value, the array is multiplied
by the scene entry fade (when not the first scene and within `fade_dur`
of the scene start), then by the scene exit fade (when not the last
scene and within `fade_dur` of the scene end), then by the global
opening fade (`t < 0.8`) or else the closing fade
(`t > DURATION - 1.5`). -/
def fade_pipeline (raw t : ℚ) : ℚ :=
  let a1 := if 0 < scene_idx t ∧ time_in_scene t < fade_dur
            then raw * ease_in_out_cubic (time_in_scene t / fade_dur) else raw
  let a2 := if scene_idx t < 5 ∧ time_to_end t < fade_dur
            then a1 * ease_in_out_cubic (time_to_end t / fade_dur) else a1
  if t < 4/5 then a2 * ease_in_out_cubic (t / (4/5))
  else if DURATION - 3/2 < t then a2 * ease_in_out_cubic ((DURATION - t) / (3/2))
  else a2

/-- The per-pixel result of `make_frame` (source line 744): the faded
value clipped once to `[0, 255]` by `np.clip(arr, 0, 255)`.  (The
subsequent `astype(np.uint8)` truncates this clipped value to an
integer.) -/
def framePixel (raw t : ℚ) : ℚ :=
  max 0 (min 255 (fade_pipeline raw t))

/-- Entry-fade weight as the spec words it: `ease_in_out_cubic` of the
normalised time into the scene when not the first scene and within
`fade_dur` of the scene start, else `1`. -/
def entry_weight_spec (t : ℚ) : ℚ :=
  if 0 < scene_idx t ∧ time_in_scene t < fade_dur
  then ease_in_out_cubic (time_in_scene t / fade_dur) else 1

/-- Exit-fade weight as the spec words it: `ease_in_out_cubic` of the
normalised time to the scene end when not the last scene and within
`fade_dur` of the scene end, else `1`. -/
def exit_weight_spec (t : ℚ) : ℚ :=
  if scene_idx t < 5 ∧ time_to_end t < fade_dur
  then ease_in_out_cubic (time_to_end t / fade_dur) else 1

/-- Global edge-fade weight as the spec words it: the opening fade for
`t < 0.8`, the closing fade for `t > DURATION - 1.5`, else `1`. -/
def global_weight_spec (t : ℚ) : ℚ :=
  if t < 4/5 then ease_in_out_cubic (t / (4/5))
  else if DURATION - 3/2 < t then ease_in_out_cubic ((DURATION - t) / (3/2))
  else 1

/-! ### Deterministic ambient-particle field (source lines 137-152)

The numpy global generator is explicit state.  `np.random.seed(seed)`
replaces the state by the freshly seeded one; `np.random.random()`
returns the next draw of the seeded stream and advances the position.
The stream itself (`stream seed k` = k-th draw after seeding with
`seed`) is a parameter: the claims depend only on the reseeding
discipline, never on the drawn values. -/

/-- State of the global numpy generator: the seed it was last seeded
with and the position reached in that seeded stream. -/
structure RngState where
  seed : ℕ
  pos : ℕ

/-- Model of `np.random.seed(s)`: discards the incoming state. -/
def np_seed (s : ℕ) (_st : RngState) : RngState := ⟨s, 0⟩

/-- Model of `np.random.random()`: next draw of the seeded stream. -/
def np_random (stream : ℕ → ℕ → ℚ) (st : RngState) : ℚ × RngState :=
  (stream st.seed st.pos, ⟨st.seed, st.pos + 1⟩)

/-- One ambient particle as drawn by `draw_floating_particles`:
position, size, twinkle alpha and palette index. -/
structure Particle where
  px : ℚ
  py : ℚ
  size : ℚ
  alpha : ℚ
  colorIdx : ℕ

/-- Body of the `for i in range(count)` loop of
`draw_floating_particles` (source lines 146-152): four generator draws
give speed, base x, base y and size; drift is a function of `t` added to
the base coordinate, reduced mod the frame dimensions; alpha twinkles
with a phase-shifted sine. -/
def particle_at (stream : ℕ → ℕ → ℚ) (sinQ : ℚ → ℚ) (w h t : ℚ)
    (i : ℕ) (st : RngState) : Particle × RngState :=
  let r1 := np_random stream st
  let speed := 1/5 + r1.1 * (1/2)
  let r2 := np_random stream r1.2
  let x := qmod (r2.1 * w + t * 40 * speed) w
  let r3 := np_random stream r2.2
  let y := qmod (r3.1 * h + sinQ (t * speed * (4/5) + i) * 30) h
  let r4 := np_random stream r3.2
  let size := 3/2 + r4.1 * (5/2)
  let alpha := 3/10 + 3/10 * sinQ (t * 2 + i)
  (⟨x, y, size, alpha, i % 3⟩, r4.2)

/-- The particle loop: `n` remaining particles starting at index `i`. -/
def particles_aux (stream : ℕ → ℕ → ℚ) (sinQ : ℚ → ℚ) (w h t : ℚ) :
    RngState → ℕ → ℕ → List Particle × RngState
  | st, _, 0 => ([], st)
  | st, i, n + 1 =>
      let pr := particle_at stream sinQ w h t i st
      let rest := particles_aux stream sinQ w h t pr.2 (i + 1) n
      (pr.1 :: rest.1, rest.2)

/-- Source function `draw_floating_particles`: reseeds the global
generator with `seed` and then draws `count` particles. -/
def draw_floating_particles (stream : ℕ → ℕ → ℚ) (sinQ : ℚ → ℚ)
    (w h t : ℚ) (count seed : ℕ) (st : RngState) : List Particle × RngState :=
  particles_aux stream sinQ w h t (np_seed seed st) 0 count

/-- Particle-field arguments `(count, seed)` of each scene renderer in
the `scenes` dispatch table of `make_frame` (source lines 177, 268, 350,
451, 531, 625). -/
def scene_particle_args : ℤ → ℕ × ℕ
  | 0 => (15, 42)
  | 1 => (10, 99)
  | 2 => (8, 77)
  | 3 => (8, 55)
  | 4 => (8, 33)
  | 5 => (25, 11)
  | _ => (0, 0)

/-- Observable content of one `make_frame` call: everything the
returned raster is computed from that could in principle depend on
earlier calls.  `pixel` is the fade-and-clip map applied to every raw
rasterised value. -/
structure FrameObs where
  sceneIdx : ℤ
  localProgress : ℚ
  particles : List Particle
  pixel : ℚ → ℚ

/-- Stateful skeleton of `make_frame`: resolves the active scene and
progress, draws that scene's ambient particle field through the global
generator (the only cross-call state the source touches), and applies
the fade pipeline. -/
def make_frame_rng (stream : ℕ → ℕ → ℚ) (sinQ : ℚ → ℚ) (t : ℚ)
    (st : RngState) : FrameObs × RngState :=
  let idx := scene_idx t
  let args := scene_particle_args idx
  let pr := draw_floating_particles stream sinQ WIDTH HEIGHT t args.1 args.2 st
  (⟨idx, progress t, pr.1, fun raw => framePixel raw t⟩, pr.2)

/-! ### Drawing utilities (source lines 102-124) -/

/-- Primitive drawing operations issued by `draw_rounded_rect` to the
PIL `ImageDraw` surface. -/
inductive DrawCmd : Type
  | rect (x1 y1 x2 y2 : ℚ) (fill : List ℤ)
  | pieslice (x1 y1 x2 y2 a1 a2 : ℚ) (fill : List ℤ)
  | arc (x1 y1 x2 y2 a1 a2 : ℚ) (outline : List ℤ) (width : ℚ)
  | line (x1 y1 x2 y2 : ℚ) (color : List ℤ) (width : ℚ)

/-- Source function `draw_rounded_rect`, modelled as the list of
primitive draw commands it issues: first the radius is shrunk to fit
when the box is smaller than `2 * radius` (Python `//` is floor
division), then degenerate boxes (`x2 <= x1 or y2 <= y1`) are skipped
entirely, else the fill rectangles/pieslices and outline arcs/lines are
emitted. -/
def draw_rounded_rect (x1 y1 x2 y2 radius : ℚ)
    (fill outline : Option (List ℤ)) (width : ℚ) : List DrawCmd :=
  let radius := if x2 - x1 < 2 * radius ∨ y2 - y1 < 2 * radius
                then max 0 (min ((⌊(x2 - x1) / 2⌋ : ℤ) : ℚ) ((⌊(y2 - y1) / 2⌋ : ℤ) : ℚ))
                else radius
  if x2 ≤ x1 ∨ y2 ≤ y1 then []
  else
    (match fill with
      | some f =>
          [DrawCmd.rect (x1 + radius) y1 (x2 - radius) y2 f,
           DrawCmd.rect x1 (y1 + radius) x2 (y2 - radius) f,
           DrawCmd.pieslice x1 y1 (x1 + 2 * radius) (y1 + 2 * radius) 180 270 f,
           DrawCmd.pieslice (x2 - 2 * radius) y1 x2 (y1 + 2 * radius) 270 360 f,
           DrawCmd.pieslice x1 (y2 - 2 * radius) (x1 + 2 * radius) y2 90 180 f,
           DrawCmd.pieslice (x2 - 2 * radius) (y2 - 2 * radius) x2 y2 0 90 f]
      | none => []) ++
    (match outline with
      | some o =>
          [DrawCmd.arc x1 y1 (x1 + 2 * radius) (y1 + 2 * radius) 180 270 o width,
           DrawCmd.arc (x2 - 2 * radius) y1 x2 (y1 + 2 * radius) 270 360 o width,
           DrawCmd.arc x1 (y2 - 2 * radius) (x1 + 2 * radius) y2 90 180 o width,
           DrawCmd.arc (x2 - 2 * radius) (y2 - 2 * radius) x2 y2 0 90 o width,
           DrawCmd.line (x1 + radius) y1 (x2 - radius) y1 o width,
           DrawCmd.line (x1 + radius) y2 (x2 - radius) y2 o width,
           DrawCmd.line x1 (y1 + radius) x1 (y2 - radius) o width,
           DrawCmd.line x2 (y1 + radius) x2 (y2 - radius) o width]
      | none => [])

/-! ### Helper lemmas on clamping -/

lemma clamp01_idem (t : ℚ) : max 0 (min 1 (max 0 (min 1 t))) = max 0 (min 1 t) := by
  simp only [min_def, max_def]
  split_ifs <;> linarith

lemma clamp01_of_neg {s : ℚ} (h : s < 0) : max 0 (min 1 s) = 0 := by
  simp only [min_def, max_def]
  split_ifs <;> linarith

lemma clamp01_of_one_lt {u : ℚ} (h : 1 < u) : max 0 (min 1 u) = 1 := by
  simp only [min_def, max_def]
  split_ifs <;> linarith

lemma min_max_comm (t : ℚ) : min (max t 0) 1 = max 0 (min 1 t) := by
  simp only [min_def, max_def]
  split_ifs <;> linarith

/-! ### Claim theorems: easing library -/

/-- Claim C6: easing endpoint exactness.  `ease_in_out_cubic`,
`ease_out_back` and `ease_out_elastic` all map `0` to `0` and `1` to `1`
exactly, for every interpretation of the transcendental externals
(`ease_out_elastic` special-cases its endpoints so no sine or power is
evaluated there). -/
theorem C6_easing_endpoints (sinQ pow2 : ℚ → ℚ) (piQ : ℚ) :
    ease_in_out_cubic 0 = 0 ∧ ease_in_out_cubic 1 = 1 ∧
    ease_out_back 0 = 0 ∧ ease_out_back 1 = 1 ∧
    ease_out_elastic sinQ pow2 piQ 0 = 0 ∧ ease_out_elastic sinQ pow2 piQ 1 = 1 := by
  refine ⟨?_, ?_, ?_, ?_, ?_, ?_⟩ <;> norm_num [ease_in_out_cubic, ease_out_back, ease_out_elastic]

/-- Claim C7, counterexample: the claim asserts
`ease_out_back t = 1 + c3 (t-1)³ + c1 (t-1)²` for every real `t`
including `t` outside `[0,1]`; at `t = 2` the code clamps the input and
returns `1`, while the claimed formula yields `1 + c3 + c1 ≠ 1`. -/
theorem C7_counterexample :
    ¬ (ease_out_back 2 =
        1 + (170158/100000 + 1) * ((2 : ℚ) - 1) ^ 3 + (170158/100000) * ((2 : ℚ) - 1) ^ 2) := by
  norm_num [ease_out_back]

/-- Claim C7, amended: `ease_out_back` clamps its own input to `[0,1]`
before applying the formula, so the formula
`1 + c3 (t-1)³ + c1 (t-1)²` (with `c1 = 1.70158`, `c3 = c1 + 1`) holds
for `t ∈ [0,1]`, while inputs below `0` yield `0` and inputs above `1`
yield `1`. -/
theorem C7_amended (t s u : ℚ) (ht0 : 0 ≤ t) (ht1 : t ≤ 1) (hs : s < 0) (hu : 1 < u) :
    ease_out_back t =
      1 + (170158/100000 + 1) * (t - 1) ^ 3 + (170158/100000) * (t - 1) ^ 2 ∧
    ease_out_back s = 0 ∧ ease_out_back u = 1 := by
  refine ⟨?_, ?_, ?_⟩
  · unfold ease_out_back
    rw [min_eq_right ht1, max_eq_right ht0]
  · unfold ease_out_back
    rw [clamp01_of_neg hs]
    norm_num
  · unfold ease_out_back
    rw [clamp01_of_one_lt hu]
    norm_num

/-- Claim C7, witness for the amended theorem at `t = 1/2`, `s = -1`,
`u = 2`. -/
theorem C7_amended_witness :
    ease_out_back (1/2) =
      1 + (170158/100000 + 1) * ((1/2 : ℚ) - 1) ^ 3 + (170158/100000) * ((1/2 : ℚ) - 1) ^ 2 ∧
    ease_out_back (-1) = 0 ∧ ease_out_back 2 = 1 :=
  C7_amended (1/2) (-1) 2 (by norm_num) (by norm_num) (by norm_num) (by norm_num)

/-- Claim C10: every easing function clamps its own input, so its value
at any `t` equals its value at `min (max t 0) 1`; consequently every
input below `0` yields the value at `0` (which is `0`) and every input
above `1` yields the value at `1` (which is `1`). -/
theorem C10_easing_input_clamp (sinQ pow2 : ℚ → ℚ) (piQ t s u : ℚ)
    (hs : s < 0) (hu : 1 < u) :
    (ease_in_out_cubic t = ease_in_out_cubic (min (max t 0) 1) ∧
      ease_in_out_cubic s = 0 ∧ ease_in_out_cubic u = 1) ∧
    (ease_out_elastic sinQ pow2 piQ t = ease_out_elastic sinQ pow2 piQ (min (max t 0) 1) ∧
      ease_out_elastic sinQ pow2 piQ s = 0 ∧ ease_out_elastic sinQ pow2 piQ u = 1) ∧
    (ease_out_back t = ease_out_back (min (max t 0) 1) ∧
      ease_out_back s = 0 ∧ ease_out_back u = 1) ∧
    (ease_out_quart t = ease_out_quart (min (max t 0) 1) ∧
      ease_out_quart s = 0 ∧ ease_out_quart u = 1) := by
  have hidem := clamp01_idem t
  have hneg := clamp01_of_neg hs
  have hone := clamp01_of_one_lt hu
  refine ⟨⟨?_, ?_, ?_⟩, ⟨?_, ?_, ?_⟩, ⟨?_, ?_, ?_⟩, ⟨?_, ?_, ?_⟩⟩
  · unfold ease_in_out_cubic; rw [min_max_comm, hidem]
  · unfold ease_in_out_cubic; rw [hneg]; norm_num
  · unfold ease_in_out_cubic; rw [hone]; norm_num
  · unfold ease_out_elastic; rw [min_max_comm, hidem]
  · unfold ease_out_elastic; rw [hneg]; norm_num
  · unfold ease_out_elastic; rw [hone]; norm_num
  · unfold ease_out_back; rw [min_max_comm, hidem]
  · unfold ease_out_back; rw [hneg]; norm_num
  · unfold ease_out_back; rw [hone]; norm_num
  · unfold ease_out_quart; rw [min_max_comm, hidem]
  · unfold ease_out_quart; rw [hneg]; norm_num
  · unfold ease_out_quart; rw [hone]; norm_num

/-- Claim C10, witness at `t = 7`, `s = -2`, `u = 3`, with the
transcendental externals interpreted as the identity and `0`. -/
theorem C10_easing_input_clamp_witness :
    (ease_in_out_cubic 7 = ease_in_out_cubic (min (max 7 0) 1) ∧
      ease_in_out_cubic (-2) = 0 ∧ ease_in_out_cubic 3 = 1) ∧
    (ease_out_elastic id id 0 7 = ease_out_elastic id id 0 (min (max 7 0) 1) ∧
      ease_out_elastic id id 0 (-2) = 0 ∧ ease_out_elastic id id 0 3 = 1) ∧
    (ease_out_back 7 = ease_out_back (min (max 7 0) 1) ∧
      ease_out_back (-2) = 0 ∧ ease_out_back 3 = 1) ∧
    (ease_out_quart 7 = ease_out_quart (min (max 7 0) 1) ∧
      ease_out_quart (-2) = 0 ∧ ease_out_quart 3 = 1) :=
  C10_easing_input_clamp id id 0 7 (-2) 3 (by norm_num) (by norm_num)

/-! ### Claim theorems: timeline scheduler and fade pipeline -/

lemma scene_dur_eq : scene_dur = 4 := by norm_num [scene_dur, DURATION]

lemma scene_idx_eq_floor {t : ℚ} (h0 : 0 ≤ t) (h1 : t < 24) :
    scene_idx t = ⌊t / 4⌋ := by
  unfold scene_idx pyInt
  rw [scene_dur_eq, if_pos (div_nonneg h0 (by norm_num))]
  have hlt : ⌊t / 4⌋ < 6 := by
    rw [Int.floor_lt]
    push_cast
    rw [div_lt_iff₀ (by norm_num : (0:ℚ) < 4)]
    linarith
  exact min_eq_right (by omega)

lemma progress_eq_fract {t : ℚ} (h0 : 0 ≤ t) (h1 : t < 24) :
    progress t = Int.fract (t / 4) := by
  unfold progress scene_t
  rw [scene_dur_eq, scene_idx_eq_floor h0 h1, Int.fract]
  ring

/-- Claim C1: timeline partition invariant.  For `t ∈ [0, DURATION)`
the selected scene index lies in `{0,...,5}` and the local progress in
`[0,1)`; at an interior scene boundary `t = k * scene_dur` the new scene
`k` is selected with local progress `0`; and at `t = DURATION` the scene
index clamps to `5`. -/
theorem C1_partition_invariant (t : ℚ) (k : ℕ) (h0 : 0 ≤ t) (h1 : t < DURATION)
    (hk0 : 0 < k) (hk6 : k < 6) :
    (0 ≤ scene_idx t ∧ scene_idx t ≤ 5 ∧ 0 ≤ progress t ∧ progress t < 1) ∧
    (scene_idx (k * scene_dur) = k ∧ progress (k * scene_dur) = 0) ∧
    scene_idx DURATION = 5 := by
  have h24 : t < 24 := by rw [DURATION] at h1; exact h1
  have hk4 : (k : ℚ) * scene_dur = k * 4 := by rw [scene_dur_eq]
  have hb0 : (0:ℚ) ≤ k * scene_dur := by
    rw [hk4]; positivity
  have hb1 : (k : ℚ) * scene_dur < 24 := by
    rw [hk4]
    have : (k : ℚ) < 6 := by exact_mod_cast hk6
    linarith
  have hfloor : ⌊(k : ℚ) * scene_dur / 4⌋ = k := by
    rw [hk4, show (k : ℚ) * 4 / 4 = (k : ℚ) by ring]
    exact_mod_cast Int.floor_natCast k
  refine ⟨⟨?_, ?_, ?_, ?_⟩, ⟨?_, ?_⟩, ?_⟩
  · rw [scene_idx_eq_floor h0 h24]
    exact Int.floor_nonneg.mpr (div_nonneg h0 (by norm_num))
  · rw [scene_idx_eq_floor h0 h24]
    have : ⌊t / 4⌋ < 6 := by
      rw [Int.floor_lt]
      push_cast
      rw [div_lt_iff₀ (by norm_num : (0:ℚ) < 4)]
      linarith
    omega
  · rw [progress_eq_fract h0 h24]
    exact Int.fract_nonneg _
  · rw [progress_eq_fract h0 h24]
    exact Int.fract_lt_one _
  · rw [scene_idx_eq_floor hb0 hb1, hfloor]
  · rw [progress_eq_fract hb0 hb1, Int.fract, hfloor, hk4]
    push_cast
    ring
  · simp only [scene_idx, pyInt]
    rw [show DURATION / scene_dur = 6 by norm_num [scene_dur, DURATION],
      if_pos (by norm_num : (0:ℚ) ≤ 6)]
    norm_num [min_def]

/-- Claim C1 witness: instantiated at `t = 1`, `k = 2`. -/
theorem C1_partition_invariant_witness :
    ((0:ℚ) ≤ 1 ∧ (1:ℚ) < DURATION ∧ 0 < 2 ∧ 2 < 6) ∧
    ((0 ≤ scene_idx 1 ∧ scene_idx 1 ≤ 5 ∧ 0 ≤ progress 1 ∧ progress 1 < 1) ∧
      (scene_idx ((2:ℕ) * scene_dur) = 2 ∧ progress ((2:ℕ) * scene_dur) = 0) ∧
      scene_idx DURATION = 5) :=
  ⟨⟨by norm_num, by norm_num [DURATION], by norm_num, by norm_num⟩,
    C1_partition_invariant 1 2 (by norm_num) (by norm_num [DURATION])
      (by norm_num) (by norm_num)⟩

lemma fade_pipeline_eq_weights (raw t : ℚ) :
    fade_pipeline raw t =
      raw * entry_weight_spec t * exit_weight_spec t * global_weight_spec t := by
  simp only [fade_pipeline, entry_weight_spec, exit_weight_spec, global_weight_spec]
  split_ifs <;> ring

/-- Claim C2: fade compositing formula.  For `t ∈ [0, DURATION)` the
per-pixel value of `make_frame` equals the raw rasterised value times
the entry, exit and global fade weights (each `1` when its fade is
inactive), clamped to `[0, 255]` exactly once, after all
multiplications. -/
theorem C2_fade_compositing (raw t : ℚ) (h0 : 0 ≤ t) (h1 : t < DURATION) :
    framePixel raw t =
      max 0 (min 255
        (raw * entry_weight_spec t * exit_weight_spec t * global_weight_spec t)) := by
  rw [framePixel, fade_pipeline_eq_weights]

/-- Claim C2 witness: instantiated at `raw = 100`, `t = 1`. -/
theorem C2_fade_compositing_witness :
    ((0:ℚ) ≤ 1 ∧ (1:ℚ) < DURATION) ∧
    framePixel 100 1 =
      max 0 (min 255
        (100 * entry_weight_spec 1 * exit_weight_spec 1 * global_weight_spec 1)) :=
  ⟨⟨by norm_num, by norm_num [DURATION]⟩,
    C2_fade_compositing 100 1 (by norm_num) (by norm_num [DURATION])⟩

/-- Claim C3, code bug: the claim (and the spec's error-handling design)
requires `scene_idx = clamp(floor(t / scene_dur), 0, 5)` with the lookup
never out of range, but the code computes `min(5, int(t / scene_dur))`
with no lower clamp.  At `t = -28` the code yields `-7`: the claimed
clamped value is `0`, and `-7` is outside even Python's valid index
range `[-6, 5]` for the 6-element scene table, so `scenes[scene_idx]`
raises `IndexError`. -/
theorem C3_no_lower_clamp_bug :
    scene_idx (-28) = -7 ∧ scene_idx (-28) < -6 ∧
    max 0 (min 5 ⌊(-28 : ℚ) / scene_dur⌋) = 0 := by
  have harg : (-28 : ℚ) / scene_dur = -7 := by norm_num [scene_dur, DURATION]
  have hceil : ⌈(-7 : ℚ)⌉ = -7 := by
    rw [show ((-7 : ℚ)) = ((-7 : ℤ) : ℚ) by norm_num, Int.ceil_intCast]
  have h1 : scene_idx (-28) = -7 := by
    simp only [scene_idx, pyInt]
    rw [harg, if_neg (by norm_num : ¬ (0:ℚ) ≤ -7), hceil]
    norm_num [min_def]
  refine ⟨h1, by rw [h1]; norm_num, ?_⟩
  rw [harg]
  norm_num [min_def, max_def]

/-- Claim C4, counterexample: the claim puts `t = DURATION/2 = 12` in
scene `2` at local progress `1/2` with all fade weights `1`; in the code
`t = 12` is the exact start of scene `3`, so the index is `3`, the
progress is `0`, and the entry fade is active with weight `0`. -/
lemma scene_idx_mid : scene_idx (DURATION / 2) = 3 := by
  simp only [scene_idx, pyInt]
  rw [show DURATION / 2 / scene_dur = 3 by norm_num [scene_dur, DURATION],
    if_pos (by norm_num : (0:ℚ) ≤ 3)]
  norm_num [min_def]

lemma time_in_scene_mid : time_in_scene (DURATION / 2) = 0 := by
  simp only [time_in_scene]
  rw [scene_idx_mid]
  norm_num [scene_dur, DURATION]

lemma time_to_end_mid : time_to_end (DURATION / 2) = 4 := by
  simp only [time_to_end]
  rw [scene_idx_mid]
  norm_num [scene_dur, DURATION]

lemma progress_mid : progress (DURATION / 2) = 0 := by
  simp only [progress, scene_t]
  rw [scene_idx_mid]
  norm_num [scene_dur, DURATION]

lemma entry_weight_mid : entry_weight_spec (DURATION / 2) = 0 := by
  simp only [entry_weight_spec]
  rw [if_pos ⟨by rw [scene_idx_mid]; norm_num,
        by rw [time_in_scene_mid]; norm_num [fade_dur]⟩,
    time_in_scene_mid]
  norm_num [fade_dur, ease_in_out_cubic, min_def, max_def]

theorem C4_mid_timeline_counterexample :
    ¬ (scene_idx (DURATION / 2) = 2 ∧ progress (DURATION / 2) = 1/2 ∧
        entry_weight_spec (DURATION / 2) = 1) := by
  rintro ⟨h, -, -⟩
  rw [scene_idx_mid] at h
  norm_num at h

/-- Claim C4, amended: at `t = DURATION/2 = 12` the scheduler yields
`scene_index = 3` with `local_progress = 0` (the boundary belongs to the
new scene), the entry fade is active with weight
`ease_in_out_cubic(0) = 0` while the exit and global weights are `1`,
so every pixel of the frame is darkened to `0`. -/
theorem C4_mid_timeline_amended :
    scene_idx (DURATION / 2) = 3 ∧ progress (DURATION / 2) = 0 ∧
    entry_weight_spec (DURATION / 2) = 0 ∧ exit_weight_spec (DURATION / 2) = 1 ∧
    global_weight_spec (DURATION / 2) = 1 ∧
    ∀ raw : ℚ, framePixel raw (DURATION / 2) = 0 := by
  have h6 : exit_weight_spec (DURATION / 2) = 1 := by
    have hn : ¬ (scene_idx (DURATION / 2) < 5 ∧ time_to_end (DURATION / 2) < fade_dur) := by
      rw [time_to_end_mid, fade_dur]
      rintro ⟨-, hb⟩
      norm_num at hb
    simp only [exit_weight_spec, if_neg hn]
  have h7 : global_weight_spec (DURATION / 2) = 1 := by
    have hna : ¬ (DURATION / 2 < 4/5) := by norm_num [DURATION]
    have hnb : ¬ (DURATION - 3/2 < DURATION / 2) := by norm_num [DURATION]
    simp only [global_weight_spec, if_neg hna, if_neg hnb]
  refine ⟨scene_idx_mid, progress_mid, entry_weight_mid, h6, h7, ?_⟩
  intro raw
  rw [framePixel, fade_pipeline_eq_weights, entry_weight_mid, h6, h7]
  rw [mul_zero, zero_mul, zero_mul]
  norm_num

/-- Claim C5: determinism and frame-order independence.  The particle
field drawn with identical `(seed, count, time)` is identical whatever
the incoming state of the global generator (it reseeds first), and the
observable content of `make_frame` at a fixed `t` is likewise
independent of the generator state left behind by previously rendered
frames — so two invocations at the same `t`, in any frame order, agree.
This holds for every seeded stream `stream` and every interpretation
`sinQ` of `math.sin`. -/
theorem C5_determinism (stream : ℕ → ℕ → ℚ) (sinQ : ℚ → ℚ)
    (w h t : ℚ) (count seed : ℕ) (st1 st2 : RngState) :
    (draw_floating_particles stream sinQ w h t count seed st1).1 =
      (draw_floating_particles stream sinQ w h t count seed st2).1 ∧
    (make_frame_rng stream sinQ t st1).1 = (make_frame_rng stream sinQ t st2).1 :=
  ⟨rfl, rfl⟩

/-- Claim C8: color channel clamping.  For any color whose channels lie
in `[0, 255]` and any alpha, every channel of `alpha_color color alpha`
is an integer in `[0, 255]` — in particular, alpha `2` never pushes a
channel above `255` and alpha `-1` never below `0`. -/
theorem C8_alpha_color_clamped (color : List ℚ) (a : ℚ)
    (hc : ∀ c ∈ color, 0 ≤ c ∧ c ≤ 255) :
    ∀ x ∈ alpha_color color a, 0 ≤ x ∧ x ≤ 255 := by
  intro x hx
  simp only [alpha_color, List.mem_map] at hx
  obtain ⟨c, _, rfl⟩ := hx
  exact ⟨le_max_left _ _, max_le (by norm_num) (min_le_left _ _)⟩

/-- Claim C8 witness: the color `(100, 250, 3)` at alpha `2`. -/
theorem C8_alpha_color_clamped_witness :
    (∀ c ∈ ([100, 250, 3] : List ℚ), 0 ≤ c ∧ c ≤ 255) ∧
    ∀ x ∈ alpha_color [100, 250, 3] 2, 0 ≤ x ∧ x ≤ 255 :=
  ⟨by decide, C8_alpha_color_clamped [100, 250, 3] 2 (by decide)⟩

/-- Claim C9: degenerate-geometry skipping.  When `x2 ≤ x1` or
`y2 ≤ y1`, `draw_rounded_rect` issues no draw command at all — the
degenerate element is skipped rather than drawn, and no drawing error
can arise. -/
theorem C9_degenerate_geometry_skipped (x1 y1 x2 y2 radius : ℚ)
    (fill outline : Option (List ℤ)) (width : ℚ) (h : x2 ≤ x1 ∨ y2 ≤ y1) :
    draw_rounded_rect x1 y1 x2 y2 radius fill outline width = [] := by
  simp only [draw_rounded_rect]
  rw [if_pos h]

/-- Claim C9 witness: a box with `x2 < x1`. -/
theorem C9_degenerate_geometry_skipped_witness :
    ((5:ℚ) ≤ 10 ∨ (20:ℚ) ≤ 10) ∧
    draw_rounded_rect 10 10 5 20 3 (some [255, 255, 255]) none 1 = [] :=
  ⟨Or.inl (by norm_num),
    C9_degenerate_geometry_skipped 10 10 5 20 3 (some [255, 255, 255]) none 1
      (Or.inl (by norm_num))⟩

end MotionDesign
